import Mathlib

/-!
Shallow embedding of the `mcp-bolk` server (source file `server.js`,
given here as `src/unnamed/part_004`).  The embedding covers:

* the SQLite-backed entry store (`insertEntry`, `sumEntries`),
* the REST tool endpoints `POST /api/tools/store` and `GET /api/tools/sum`,
* the MCP `tools/call` request handler (`store`, `sum`, unknown-tool fallthrough),
* the SSE session registry and the `POST /messages` dispatch handler,
* the `/api/chat` orchestration loop with its 5-round guard.

JavaScript dynamic values that reach the tool handlers are modelled by
`JVal` (JSON numbers as rationals, JSON strings); an absent field is
`Option.none`.  JS string comparison performed by SQLite on the
`created_at` column is modelled by byte-wise lexicographic comparison
(`strLe`), and `String.prototype.trim` by `jsTrim` over the full
ECMAScript WhiteSpace and LineTerminator character set.
The chat model provider and the MCP client transport are black boxes in
the source (network calls); they enter the embedding as explicit
function/`Except` parameters of `chatEndpoint`.
-/

/-- Byte-wise lexicographic comparison of character lists, as SQLite
compares TEXT values (and as well-formed ISO-8601 timestamps order). -/
def lexLe : List Char → List Char → Bool
  | [], _ => true
  | _ :: _, [] => false
  | a :: as, b :: bs =>
    if a.val < b.val then true
    else if b.val < a.val then false
    else lexLe as bs

/-- `a <= b` on strings, byte-wise lexicographic. -/
def strLe (a b : String) : Bool := lexLe a.data b.data

/-- The ECMAScript WhiteSpace and LineTerminator characters stripped by
`String.prototype.trim`: TAB, LF, VT, FF, CR, SP, NBSP, OGHAM SPACE
MARK, the U+2000..U+200A spaces, LS, PS, NNBSP, MMSP, IDEOGRAPHIC SPACE
and ZWNBSP. -/
def jsWs (c : Char) : Bool :=
  c == ' ' || c == '\t' || c == '\n' || c == '\r' ||
  c == '\x0b' || c == '\x0c' || c.val == 0xA0 || c.val == 0x1680 ||
  (decide (0x2000 ≤ c.toNat) && decide (c.toNat ≤ 0x200A)) ||
  c.val == 0x2028 || c.val == 0x2029 || c.val == 0x202F || c.val == 0x205F ||
  c.val == 0x3000 || c.val == 0xFEFF

/-- `String.prototype.trim`. -/
def jsTrim (s : String) : String :=
  ⟨((s.data.dropWhile jsWs).reverse.dropWhile jsWs).reverse⟩

/-- Whether a string is empty, i.e. falsy in JS. -/
def strEmpty (s : String) : Bool := s.data.isEmpty

/-- Dynamically-typed JSON scalar values reaching the tool handlers:
JS numbers (modelled as rationals, so `3.5` and `3` are distinguished)
and JS strings. -/
inductive JVal
  | jnum (q : ℚ)
  | jstr (s : String)
deriving DecidableEq

/-- JS truthiness of a present value: `0` and `""` are falsy. -/
def jsTruthyV : JVal → Bool
  | .jnum q => !(q.num == 0)
  | .jstr s => !(strEmpty s)

/-- JS truthiness of a possibly-absent value (`undefined` is falsy). -/
def jsTruthy : Option JVal → Bool
  | none => false
  | some v => jsTruthyV v

/-- `typeof value === 'number' && Number.isInteger(value)`. -/
def jsIsIntegerNumber : Option JVal → Bool
  | some (.jnum q) => q.den == 1
  | _ => false

/-- `typeof description === 'string' && description.trim()` is truthy. -/
def jsNonBlankString : Option JVal → Bool
  | some (.jstr s) => !(strEmpty (jsTrim s))
  | _ => false

/-- A row of the `entries` table, as returned by `insertEntry`. -/
structure Entry where
  id : Nat
  value : Int
  description : String
  created_at : String
deriving DecidableEq

/-- The `entries` table plus the AUTOINCREMENT counter. -/
structure DBState where
  entries : List Entry
  nextId : Nat
deriving DecidableEq

/-- A freshly-created database (empty table, rowids start at 1). -/
def DBState.empty : DBState := ⟨[], 1⟩

/-- `insertEntry` (source lines 98-103): inserts a row stamped with the
current time `now` (`new Date().toISOString()`, passed explicitly here)
and returns the created record. -/
def insertEntry (st : DBState) (now : String) (value : Int) (description : String) :
    Entry × DBState :=
  let e : Entry := ⟨st.nextId, value, description, now⟩
  (e, ⟨st.entries ++ [e], st.nextId + 1⟩)

/-- Decimal digits of the fractional part of `r / d`, fuel-bounded (the
JS numbers reaching a binding are finite binary floats, whose decimal
expansions terminate). -/
def fracDigits : Nat → Nat → Nat → List Char
  | 0, _, _ => []
  | _ + 1, 0, _ => []
  | fuel + 1, r, d =>
    Char.ofNat (48 + r * 10 / d) :: fracDigits fuel (r * 10 % d) d

/-- The text form SQLite gives a bound JS number once TEXT affinity is
applied: an integer (bound as INTEGER) renders as its decimal digits, a
non-integer renders as sign, integer part and fractional expansion. -/
def sqliteTextOfNum (q : ℚ) : String :=
  if q.den = 1 then toString q.num
  else
    (if q.num < 0 then "-" else "") ++ toString (q.num.natAbs / q.den) ++ "." ++
      ⟨fracDigits 64 (q.num.natAbs % q.den) q.den⟩

/-- SQLite evaluation of `created_at >= ?` where the binding is a raw JS
value: the column has TEXT affinity, so a numeric binding is converted
to its text form and both cases compare byte-wise as text. -/
def sqliteGeFrom (created_at : String) : JVal → Bool
  | .jnum q => strLe (sqliteTextOfNum q) created_at
  | .jstr s => strLe s created_at

/-- SQLite evaluation of `created_at <= ?` for a raw JS binding, with
the same TEXT-affinity conversion of a numeric binding. -/
def sqliteLeTo (created_at : String) : JVal → Bool
  | .jnum q => strLe created_at (sqliteTextOfNum q)
  | .jstr s => strLe created_at s

/-- `sumEntries` (source lines 105-109):
`SELECT COALESCE(SUM(value), 0) FROM entries WHERE created_at >= ? AND created_at <= ?`. -/
def sumEntries (st : DBState) (fromV toV : JVal) : Int :=
  ((st.entries.filter
      (fun e => sqliteGeFrom e.created_at fromV && sqliteLeTo e.created_at toV)).map
    Entry.value).sum

/-- Hexadecimal digit for JSON `\u00XX` escapes. -/
def hexDigit (n : Nat) : Char :=
  if n < 10 then Char.ofNat (48 + n) else Char.ofNat (87 + n)

/-- `JSON.stringify` escaping of one character inside a string literal. -/
def jsonEscapeChar (c : Char) : List Char :=
  if c == '"' then ['\\', '"']
  else if c == '\\' then ['\\', '\\']
  else if c == '\n' then ['\\', 'n']
  else if c == '\t' then ['\\', 't']
  else if c == '\r' then ['\\', 'r']
  else if c == '\x08' then ['\\', 'b']
  else if c == '\x0c' then ['\\', 'f']
  else if c.toNat < 32 then
    ['\\', 'u', '0', '0', hexDigit (c.toNat / 16), hexDigit (c.toNat % 16)]
  else [c]

/-- `JSON.stringify` body of a string literal. -/
def jsonEscape (s : String) : String := ⟨s.data.flatMap jsonEscapeChar⟩

/-- `JSON.stringify` of a created `Entry`, with the object-literal key
order of `insertEntry`'s return value. -/
def entryToJson (e : Entry) : String :=
  "\x7b\"id\":" ++ toString e.id ++
  ",\"value\":" ++ toString e.value ++
  ",\"description\":\"" ++ jsonEscape e.description ++
  "\",\"created_at\":\"" ++ jsonEscape e.created_at ++ "\"\x7d"

/-- Outcome of one tool invocation on either surface: a success text
(200 JSON body / `content` text with no `isError`) or an error text
(400 `error` field / `content` text with `isError: true`). -/
inductive ToolOutcome
  | ok (text : String)
  | err (text : String)
deriving DecidableEq

/-- Whether the outcome is the error case (HTTP 400 / `isError: true`). -/
def ToolOutcome.isErr : ToolOutcome → Bool
  | .ok _ => false
  | .err _ => true

/-- The fields of the argument object that the handlers destructure. -/
structure ToolArgs where
  value : Option JVal := none
  description : Option JVal := none
  fromArg : Option JVal := none
  toArg : Option JVal := none
deriving DecidableEq

/-- The MCP `tools/call` request handler (source lines 268-290). -/
def mcpCallTool (st : DBState) (now : String) (name : String) (args : ToolArgs) :
    ToolOutcome × DBState :=
  if name = "store" then
    match args.value with
    | some (.jnum q) =>
      if q.den == 1 then
        match args.description with
        | some (.jstr s) =>
          if strEmpty (jsTrim s) then (.err "description is required", st)
          else
            let r := insertEntry st now q.num s
            (.ok (entryToJson r.1), r.2)
        | _ => (.err "description is required", st)
      else (.err "value must be integer", st)
    | _ => (.err "value must be integer", st)
  else if name = "sum" then
    match args.fromArg, args.toArg with
    | some f, some t =>
      if jsTruthyV f && jsTruthyV t then
        (.ok (toString (sumEntries st f t)), st)
      else (.err "from and to are required (ISO datetime)", st)
    | _, _ => (.err "from and to are required (ISO datetime)", st)
  else (.err ("Unknown tool: " ++ name), st)

/-- The JSON body of `POST /api/tools/store`. -/
structure StoreBody where
  value : Option JVal := none
  description : Option JVal := none
deriving DecidableEq

/-- `POST /api/tools/store` (source lines 134-144).  `ok` is the 200
response whose JSON body serialises the created entry; `err` is the 400
response's `error` field. -/
def restStore (st : DBState) (now : String) (body : StoreBody) : ToolOutcome × DBState :=
  match body.value with
  | some (.jnum q) =>
    if q.den == 1 then
      match body.description with
      | some (.jstr s) =>
        if strEmpty (jsTrim s) then (.err "description is required", st)
        else
          let r := insertEntry st now q.num s
          (.ok (entryToJson r.1), r.2)
      | _ => (.err "description is required", st)
    else (.err "value must be an integer", st)
  | _ => (.err "value must be an integer", st)

/-- `GET /api/tools/sum` (source lines 146-153).  Query parameters are
strings when present; `ok` carries the 200 JSON body. -/
def restSum (st : DBState) (fromQ toQ : Option String) : ToolOutcome :=
  match fromQ, toQ with
  | some f, some t =>
    if !(strEmpty f) && !(strEmpty t) then
      .ok ("\x7b\"total\":" ++ toString (sumEntries st (.jstr f) (.jstr t)) ++ "\x7d")
    else .err "from and to query params are required (ISO datetime)"
  | _, _ => .err "from and to query params are required (ISO datetime)"

/-- The `transports` map (source line 292): session id to transport
handle (handles abstracted as naturals). -/
abbrev SessionRegistry := List (String × Nat)

/-- `Map.prototype.get`. -/
def regGet : SessionRegistry → String → Option Nat
  | [], _ => none
  | (k, v) :: rest, sid => if k == sid then some v else regGet rest sid

/-- `Map.prototype.set` (source line 321, on SSE connect). -/
def regSet : SessionRegistry → String → Nat → SessionRegistry
  | [], sid, t => [(sid, t)]
  | (k, v) :: rest, sid, t =>
    if k == sid then (k, t) :: rest else (k, v) :: regSet rest sid t

/-- `Map.prototype.delete` (source line 323, in the close handler). -/
def regDelete (reg : SessionRegistry) (sid : String) : SessionRegistry :=
  reg.filter (fun p => !(p.1 == sid))

/-- Outcome of `POST /messages` (source lines 295-306). -/
inductive DispatchOutcome
  | badSessionId
  | noTransport
  | handled (transport : Nat)
deriving DecidableEq

/-- `POST /messages`: the `sessionId` query parameter is a string or
absent; absent rejects with 400 "Bad session id", an id with no
registered transport rejects with 400 "No transport for sessionId",
otherwise the message is handed to that session's transport. -/
def dispatchMessage (reg : SessionRegistry) (sessionId : Option String) : DispatchOutcome :=
  match sessionId with
  | none => .badSessionId
  | some sid =>
    match regGet reg sid with
    | none => .noTransport
    | some t => .handled t

/-- One tool call requested by the chat model (`msg.tool_calls[i]`);
the arguments payload stays an opaque string. -/
structure ToolCall where
  id : String
  name : String
  args : String
deriving DecidableEq

/-- `completion.choices[0].message`: optional text content plus the
requested tool calls (`[]` when the field is absent). -/
structure ChatMsg where
  content : Option String
  tool_calls : List ToolCall
deriving DecidableEq

/-- A conversation turn in the `messages` array. -/
inductive Turn
  | user (content : String)
  | assistant (content : String) (tool_calls : List ToolCall)
  | tool (content : String) (tool_call_id : String)
deriving DecidableEq

/-- Result of `callMcpTool` (source lines 77-85): flattened text plus
the error flag. -/
structure ToolCallResult where
  isError : Bool
  text : String
deriving DecidableEq

/-- One element of the `toolLogs` array. -/
structure ToolLog where
  name : String
  args : String
  output : String
deriving DecidableEq

/-- The fixed sentinel content returned on round exhaustion. -/
def sentinelContent : String := "(stopped after max tool iterations)"

/-- The 200 response body of `/api/chat` (model name field omitted). -/
structure ChatSuccess where
  content : String
  toolLogs : List ToolLog
deriving DecidableEq

/-- Response of `POST /api/chat`: `ok` is the single 200 JSON body,
`badRequest` the 400 for a missing/empty message list, `noTools` the
500 "No MCP tools available", `chatFailed` the 500 produced by the
outer catch. -/
inductive ChatResponse
  | ok (r : ChatSuccess)
  | badRequest (error : String)
  | noTools
  | chatFailed (detail : String)
deriving DecidableEq

/-- The log entries appended for one round's tool calls, in the order
the model emitted them (source lines 204-210). -/
def roundLogs (execTool : String → String → ToolCallResult) (tcs : List ToolCall) :
    List ToolLog :=
  tcs.map (fun tc => ⟨tc.name, tc.args, (execTool tc.name tc.args).text⟩)

/-- The `tool` turns synthesised for one round's tool calls. -/
def roundToolTurns (execTool : String → String → ToolCallResult) (tcs : List ToolCall) :
    List Turn :=
  tcs.map (fun tc => Turn.tool (execTool tc.name tc.args).text tc.id)

/-- The `while (guard < 5)` loop of `/api/chat` (source lines 192-221).
`modelResp i` is the outcome of the i-th `chat.completions.create` call
(`Except.error` = thrown upstream error, `Except.ok none` = completion
with no message); `execTool` is `callMcpTool` over the MCP client.
Arguments: remaining rounds, number of model calls already made, the
current completion's message, the `messages` array, the accumulated
`toolLogs`.  Returns the loop's outcome (an uncaught upstream error or
the 200 body) together with the total number of model calls made. -/
def chatRounds (modelResp : Nat → Except String (Option ChatMsg))
    (execTool : String → String → ToolCallResult) :
    Nat → Nat → Option ChatMsg → List Turn → List ToolLog →
    Except String ChatSuccess × Nat
  | 0, calls, _, _, logs => (.ok ⟨sentinelContent, logs⟩, calls)
  | _ + 1, calls, none, _, logs => (.ok ⟨sentinelContent, logs⟩, calls)
  | fuel + 1, calls, some msg, msgs, logs =>
    if msg.tool_calls.isEmpty then (.ok ⟨msg.content.getD "", logs⟩, calls)
    else
      let logs2 := logs ++ roundLogs execTool msg.tool_calls
      let msgs2 := msgs ++ [Turn.assistant (msg.content.getD "") msg.tool_calls] ++
        roundToolTurns execTool msg.tool_calls
      match modelResp calls with
      | .error e => (.error e, calls + 1)
      | .ok c => chatRounds modelResp execTool fuel (calls + 1) c msgs2 logs2

/-- The JSON body of `POST /api/chat`. -/
structure ChatBody where
  message : Option JVal := none
  messages : Option (List Turn) := none

/-- `POST /api/chat` (source lines 156-231).  `clientCreate` models
`createOpenAIClient()` and `connectOutcome` models
`connectMcpClient(sseUrl)` (throw = `Except.error`); `mcpToolNames` is
the `tools/list` result.  Returns the single response together with the
number of chat-model calls made. -/
def chatEndpoint (clientCreate : Except String Unit) (connectOutcome : Except String Unit)
    (mcpToolNames : List String) (modelResp : Nat → Except String (Option ChatMsg))
    (execTool : String → String → ToolCallResult) (body : ChatBody) :
    ChatResponse × Nat :=
  let messages0 : Option (List Turn) :=
    match body.messages with
    | some ms => some ms
    | none =>
      match body.message with
      | some (.jstr s) =>
        if strEmpty (jsTrim s) then none else some [Turn.user (jsTrim s)]
      | _ => none
  match messages0 with
  | none => (.badRequest "Provide `message` or non-empty `messages` array.", 0)
  | some ms =>
    if ms.isEmpty then
      (.badRequest "Provide `message` or non-empty `messages` array.", 0)
    else
      match clientCreate with
      | .error e => (.chatFailed e, 0)
      | .ok _ =>
        match connectOutcome with
        | .error e => (.chatFailed e, 0)
        | .ok _ =>
          if mcpToolNames.isEmpty then (.noTools, 0)
          else
            match modelResp 0 with
            | .error e => (.chatFailed e, 1)
            | .ok c0 =>
              match chatRounds modelResp execTool 5 1 c0 ms [] with
              | (.ok s, n) => (.ok s, n)
              | (.error e, n) => (.chatFailed e, n)

/-! Helper lemmas about the session registry. -/

lemma regGet_delete_self (reg : SessionRegistry) (sid : String) :
    regGet (regDelete reg sid) sid = none := by
  induction reg with
  | nil => rfl
  | cons p rest ih =>
    obtain ⟨k, v⟩ := p
    by_cases h : k = sid
    · simpa [regDelete, h] using ih
    · simpa [regDelete, regGet, h] using ih

lemma regGet_mem (reg : SessionRegistry) (sid : String) (t : Nat)
    (h : regGet reg sid = some t) : (sid, t) ∈ reg := by
  induction reg with
  | nil => simp [regGet] at h
  | cons p rest ih =>
    obtain ⟨k, v⟩ := p
    by_cases hk : k = sid
    · subst hk
      simp [regGet] at h
      subst h
      exact List.mem_cons_self _ _
    · simp [regGet, hk] at h
      exact List.mem_cons_of_mem _ (ih h)

lemma regGet_not_issued (reg : SessionRegistry) (sid : String)
    (h : ∀ t, (sid, t) ∉ reg) : regGet reg sid = none := by
  cases hr : regGet reg sid with
  | none => rfl
  | some t => exact absurd (regGet_mem reg sid t hr) (h t)

/-- C5: dispatch by session id either routes to the transport registered
under exactly that id or is rejected with a 400-class outcome; a missing
or non-string id is rejected, an id with no registry entry (never issued
or already deleted by the close handler) is rejected, and routing to a
transport implies that transport is registered under the dispatched id. -/
theorem dispatch_session_isolation :
    (∀ reg : SessionRegistry, dispatchMessage reg none = .badSessionId) ∧
    (∀ (reg : SessionRegistry) (sid : String), regGet reg sid = none →
      dispatchMessage reg (some sid) = .noTransport) ∧
    (∀ (reg : SessionRegistry) (sid : String) (t : Nat),
      dispatchMessage reg (some sid) = .handled t → (sid, t) ∈ reg) ∧
    (∀ (reg : SessionRegistry) (sid : String),
      dispatchMessage (regDelete reg sid) (some sid) = .noTransport) ∧
    (∀ (reg : SessionRegistry) (sid : String), (∀ t, (sid, t) ∉ reg) →
      dispatchMessage reg (some sid) = .noTransport) := by
  refine ⟨fun reg => rfl, fun reg sid h => by simp [dispatchMessage, h], ?_, ?_, ?_⟩
  · intro reg sid t h
    cases hr : regGet reg sid with
    | none => simp [dispatchMessage, hr] at h
    | some u =>
      simp [dispatchMessage, hr] at h
      exact h ▸ regGet_mem reg sid u hr
  · intro reg sid
    simp [dispatchMessage, regGet_delete_self]
  · intro reg sid h
    simp [dispatchMessage, regGet_not_issued reg sid h]

/-- C5 witness: a registry holding sessions "s1" and "s2"; dispatching to
"s2" after its close handler ran is rejected, as is a never-issued id. -/
theorem dispatch_session_isolation_inst :
    dispatchMessage [("s1", 7), ("s2", 9)] none = .badSessionId ∧
    dispatchMessage (regDelete [("s1", 7), ("s2", 9)] "s2") (some "s2") = .noTransport ∧
    dispatchMessage [("s1", 7), ("s2", 9)] (some "forged") = .noTransport :=
  ⟨dispatch_session_isolation.1 _,
   dispatch_session_isolation.2.2.2.1 [("s1", 7), ("s2", 9)] "s2",
   dispatch_session_isolation.2.2.2.2 [("s1", 7), ("s2", 9)] "forged" (by simp)⟩

/-- C7: for every tool name other than "store" and "sum", the tools/call
handler returns an error-flagged result whose text is exactly
"Unknown tool: " followed by the requested name. -/
theorem unknown_tool_result (st : DBState) (now name : String) (args : ToolArgs)
    (h1 : name ≠ "store") (h2 : name ≠ "sum") :
    mcpCallTool st now name args = (.err ("Unknown tool: " ++ name), st) ∧
    (mcpCallTool st now name args).1.isErr = true := by
  constructor
  · simp [mcpCallTool, h1, h2]
  · simp [mcpCallTool, h1, h2, ToolOutcome.isErr]

/-- C7 witness: invoking "frobnicate" on an empty store. -/
theorem unknown_tool_result_inst :
    mcpCallTool DBState.empty "T" "frobnicate" ⟨none, none, none, none⟩ =
      (.err ("Unknown tool: " ++ "frobnicate"), DBState.empty) ∧
    (mcpCallTool DBState.empty "T" "frobnicate" ⟨none, none, none, none⟩).1.isErr = true :=
  unknown_tool_result DBState.empty "T" "frobnicate" ⟨none, none, none, none⟩
    (by decide) (by decide)

/-- C6: the sum tool fails with the exact text
"from and to are required (ISO datetime)" whenever `from` or `to` is
absent or falsy (in particular absent or the empty string); any two
non-empty strings pass with no further format validation and the
success text is the decimal string of the sum of matching values; the
sum is 0 when no rows match. -/
theorem sum_tool_validation_and_result :
    (∀ (st : DBState) (now : String) (args : ToolArgs),
      jsTruthy args.fromArg = false ∨ jsTruthy args.toArg = false →
      mcpCallTool st now "sum" args = (.err "from and to are required (ISO datetime)", st)) ∧
    (jsTruthy none = false ∧ jsTruthy (some (.jstr "")) = false) ∧
    (∀ (st : DBState) (now f t : String), strEmpty f = false → strEmpty t = false →
      mcpCallTool st now "sum" ⟨none, none, some (.jstr f), some (.jstr t)⟩ =
        (.ok (toString (sumEntries st (.jstr f) (.jstr t))), st)) ∧
    (∀ (st : DBState) (fv tv : JVal),
      st.entries.filter
        (fun e => sqliteGeFrom e.created_at fv && sqliteLeTo e.created_at tv) = [] →
      sumEntries st fv tv = 0) := by
  refine ⟨?_, ⟨rfl, by decide⟩, ?_, ?_⟩
  · intro st now args h
    match hf : args.fromArg, ht : args.toArg with
    | none, _ => simp [mcpCallTool, hf]
    | some f, none => simp [mcpCallTool, hf, ht]
    | some f, some t =>
      rw [hf, ht] at h
      simp only [jsTruthy] at h
      rcases h with h | h <;> simp [mcpCallTool, hf, ht, h]
  · intro st now f t hf ht
    simp [mcpCallTool, jsTruthyV, hf, ht]
  · intro st fv tv h
    simp [sumEntries, h]

/-- C6 witness: an absent `from` is rejected; the malformed strings
"not-a-date" and "zzz" are accepted and sum the empty store to "0". -/
theorem sum_tool_validation_and_result_inst :
    mcpCallTool DBState.empty "T" "sum" ⟨none, none, none, some (.jstr "x")⟩ =
      (.err "from and to are required (ISO datetime)", DBState.empty) ∧
    mcpCallTool DBState.empty "T" "sum"
        ⟨none, none, some (.jstr "not-a-date"), some (.jstr "zzz")⟩ =
      (.ok (toString (sumEntries DBState.empty (.jstr "not-a-date") (.jstr "zzz"))),
        DBState.empty) ∧
    sumEntries DBState.empty (.jstr "not-a-date") (.jstr "zzz") = 0 :=
  ⟨sum_tool_validation_and_result.1 DBState.empty "T" _ (Or.inl rfl),
   sum_tool_validation_and_result.2.2.1 DBState.empty "T" "not-a-date" "zzz" rfl rfl,
   sum_tool_validation_and_result.2.2.2 DBState.empty _ _ rfl⟩

/-- C9 (amended): a stored value whose timestamp lies within [from, to]
is added to a subsequent sum over that range (new total = old total +
v), a store outside the range leaves the sum unchanged, the
store-5-then-sum-1970..2100 scenario yields exactly 5 on an empty
store, and yields at least 5 whenever the prior in-range total was
non-negative. -/
theorem store_sum_roundtrip :
    (∀ (st : DBState) (now : String) (v : Int) (d f t : String),
      strLe f now = true → strLe now t = true →
      sumEntries (insertEntry st now v d).2 (.jstr f) (.jstr t) =
        sumEntries st (.jstr f) (.jstr t) + v) ∧
    (∀ (st : DBState) (now : String) (v : Int) (d f t : String),
      strLe f now = false ∨ strLe now t = false →
      sumEntries (insertEntry st now v d).2 (.jstr f) (.jstr t) =
        sumEntries st (.jstr f) (.jstr t)) ∧
    (∀ now : String, strLe "1970-01-01T00:00:00.000Z" now = true →
      strLe now "2100-01-01T00:00:00.000Z" = true →
      sumEntries (insertEntry DBState.empty now 5 "hello").2
        (.jstr "1970-01-01T00:00:00.000Z") (.jstr "2100-01-01T00:00:00.000Z") = 5) ∧
    (∀ (st : DBState) (now : String), strLe "1970-01-01T00:00:00.000Z" now = true →
      strLe now "2100-01-01T00:00:00.000Z" = true →
      0 ≤ sumEntries st (.jstr "1970-01-01T00:00:00.000Z")
        (.jstr "2100-01-01T00:00:00.000Z") →
      5 ≤ sumEntries (insertEntry st now 5 "hello").2
        (.jstr "1970-01-01T00:00:00.000Z") (.jstr "2100-01-01T00:00:00.000Z")) := by
  have hin : ∀ (st : DBState) (now : String) (v : Int) (d f t : String),
      strLe f now = true → strLe now t = true →
      sumEntries (insertEntry st now v d).2 (.jstr f) (.jstr t) =
        sumEntries st (.jstr f) (.jstr t) + v := by
    intro st now v d f t h1 h2
    simp [sumEntries, insertEntry, List.filter_append, sqliteGeFrom, sqliteLeTo, h1, h2]
  refine ⟨hin, ?_, ?_, ?_⟩
  · intro st now v d f t h
    rcases h with h | h <;>
      simp [sumEntries, insertEntry, List.filter_append, sqliteGeFrom, sqliteLeTo, h]
  · intro now h1 h2
    have := hin DBState.empty now 5 "hello" _ _ h1 h2
    simpa [DBState.empty, sumEntries] using this
  · intro st now h1 h2 h0
    have := hin st now 5 "hello" _ _ h1 h2
    omega

/-- C9 witness: on the empty store, storing 5 at a 2026 timestamp and
summing 1970..2100 yields exactly 5. -/
theorem store_sum_roundtrip_inst :
    sumEntries (insertEntry DBState.empty "2026-10-11T00:00:00.000Z" 5 "hello").2
      (.jstr "1970-01-01T00:00:00.000Z") (.jstr "2100-01-01T00:00:00.000Z") = 5 :=
  store_sum_roundtrip.2.2.1 "2026-10-11T00:00:00.000Z" (by decide) (by decide)

/-- An entry store already holding a (tool-creatable) negative value
inside the 1970..2100 range. -/
def negDB : DBState := ⟨[⟨1, -10, "neg", "2000-01-01T00:00:00.000Z"⟩], 2⟩

/-- C9 counterexample: with a previously stored value of -10 in range,
store(5) followed by sum over 1970..2100 totals -5, which is not at
least 5 — refuting the claim's unconditional "total at least 5". -/
theorem store_sum_at_least_refuted :
    sumEntries (insertEntry negDB "2026-01-01T00:00:00.000Z" 5 "hello").2
      (.jstr "1970-01-01T00:00:00.000Z") (.jstr "2100-01-01T00:00:00.000Z") = -5 ∧
    ¬(5 ≤ (-5 : Int)) := by
  constructor
  · decide
  · decide

/-! Helper lemmas about the chat orchestration loop. -/

lemma chatRounds_break_no_msg (m : Nat → Except String (Option ChatMsg))
    (e : String → String → ToolCallResult) (fuel calls : Nat) (msgs : List Turn)
    (logs : List ToolLog) :
    chatRounds m e (fuel + 1) calls none msgs logs =
      (.ok ⟨sentinelContent, logs⟩, calls) := rfl

lemma chatRounds_plain_text (m : Nat → Except String (Option ChatMsg))
    (e : String → String → ToolCallResult) (fuel calls : Nat) (msg : ChatMsg)
    (msgs : List Turn) (logs : List ToolLog) (h : msg.tool_calls.isEmpty = true) :
    chatRounds m e (fuel + 1) calls (some msg) msgs logs =
      (.ok ⟨msg.content.getD "", logs⟩, calls) := by
  simp [chatRounds, h]

lemma chatRounds_step (m : Nat → Except String (Option ChatMsg))
    (e : String → String → ToolCallResult) (fuel calls : Nat) (msg : ChatMsg)
    (msgs : List Turn) (logs : List ToolLog) (c : Option ChatMsg)
    (h : msg.tool_calls.isEmpty = false) (hm : m calls = .ok c) :
    chatRounds m e (fuel + 1) calls (some msg) msgs logs =
      chatRounds m e fuel (calls + 1) c
        (msgs ++ [Turn.assistant (msg.content.getD "") msg.tool_calls] ++
          roundToolTurns e msg.tool_calls)
        (logs ++ roundLogs e msg.tool_calls) := by
  simp [chatRounds, h, hm]

lemma chatRounds_model_error (m : Nat → Except String (Option ChatMsg))
    (e : String → String → ToolCallResult) (fuel calls : Nat) (msg : ChatMsg)
    (msgs : List Turn) (logs : List ToolLog) (er : String)
    (h : msg.tool_calls.isEmpty = false) (hm : m calls = .error er) :
    chatRounds m e (fuel + 1) calls (some msg) msgs logs = (.error er, calls + 1) := by
  simp [chatRounds, h, hm]

lemma chatEndpoint_entry (tools : List String) (m : Nat → Except String (Option ChatMsg))
    (e : String → String → ToolCallResult) (ms : List Turn) (c0 : Option ChatMsg)
    (hms : ms.isEmpty = false) (htools : tools.isEmpty = false) (h0 : m 0 = .ok c0) :
    chatEndpoint (.ok ()) (.ok ()) tools m e ⟨none, some ms⟩ =
      (match chatRounds m e 5 1 c0 ms [] with
       | (.ok s, n) => (.ok s, n)
       | (.error er, n) => (.chatFailed er, n)) := by
  simp [chatEndpoint, hms, htools, h0]

lemma chatRounds_all_toolcalls (m : Nat → Except String (Option ChatMsg))
    (e : String → String → ToolCallResult) (M : Nat → ChatMsg)
    (hresp : ∀ i, m i = .ok (some (M i)))
    (hcalls : ∀ i, (M i).tool_calls.isEmpty = false) :
    ∀ (fuel calls j : Nat) (msgs : List Turn) (logs : List ToolLog),
      ∃ logs2, chatRounds m e fuel calls (some (M j)) msgs logs =
        (.ok ⟨sentinelContent, logs2⟩, calls + fuel) := by
  intro fuel
  induction fuel with
  | zero => exact fun calls j msgs logs => ⟨logs, by simp [chatRounds]⟩
  | succ n ih =>
    intro calls j msgs logs
    rw [chatRounds_step m e n calls (M j) msgs logs (some (M calls)) (hcalls j) (hresp calls)]
    obtain ⟨logs2, h⟩ := ih (calls + 1) calls
      (msgs ++ [Turn.assistant ((M j).content.getD "") (M j).tool_calls] ++
        roundToolTurns e (M j).tool_calls)
      (logs ++ roundLogs e (M j).tool_calls)
    exact ⟨logs2, by rw [h]; congr 1; omega⟩

/-- C1 (amended): when the chat model's response contains tool calls on
every round, the chat endpoint terminates with the fixed sentinel
content after exactly 6 model calls (the initial call plus one at the
end of each of the 5 guarded rounds, the last response being
discarded); it never loops indefinitely. -/
theorem chat_guard_six_model_calls_sentinel (tools : List String)
    (m : Nat → Except String (Option ChatMsg)) (e : String → String → ToolCallResult)
    (M : Nat → ChatMsg) (ms : List Turn) (hms : ms.isEmpty = false)
    (htools : tools.isEmpty = false) (hresp : ∀ i, m i = .ok (some (M i)))
    (hcalls : ∀ i, (M i).tool_calls.isEmpty = false) :
    ∃ logs, chatEndpoint (.ok ()) (.ok ()) tools m e ⟨none, some ms⟩ =
      (.ok ⟨sentinelContent, logs⟩, 6) := by
  obtain ⟨logs2, h⟩ := chatRounds_all_toolcalls m e M hresp hcalls 5 1 0 ms []
  refine ⟨logs2, ?_⟩
  rw [chatEndpoint_entry tools m e ms (some (M 0)) hms htools (hresp 0), h]

/-- A chat model that requests a tool call on every round. -/
def constToolMsg : ChatMsg := ⟨some "", [⟨"call1", "store", "a"⟩]⟩

/-- The completion stream of that model. -/
def constToolModel : Nat → Except String (Option ChatMsg) := fun _ => .ok (some constToolMsg)

/-- A tool executor whose every result is the text "out". -/
def constExec : String → String → ToolCallResult := fun _ _ => ⟨false, "out"⟩

/-- C1 witness: the always-tool-calling model against the live tool
list terminates with the sentinel after 6 model calls. -/
theorem chat_guard_six_model_calls_sentinel_inst :
    ∃ logs, chatEndpoint (.ok ()) (.ok ()) ["store", "sum"] constToolModel constExec
      ⟨none, some [Turn.user "hi"]⟩ = (.ok ⟨sentinelContent, logs⟩, 6) :=
  chat_guard_six_model_calls_sentinel ["store", "sum"] constToolModel constExec
    (fun _ => constToolMsg) [Turn.user "hi"] rfl rfl (fun _ => rfl) (fun _ => rfl)

/-- C1 counterexample to "exactly 5 model calls": with the
always-tool-calling model the endpoint returns the sentinel but the
number of model calls made is 6, not 5. -/
theorem chat_guard_five_calls_refuted :
    chatEndpoint (.ok ()) (.ok ()) ["store", "sum"] constToolModel constExec
        ⟨none, some [Turn.user "hi"]⟩ =
      (.ok ⟨sentinelContent,
        [⟨"store", "a", "out"⟩, ⟨"store", "a", "out"⟩, ⟨"store", "a", "out"⟩,
         ⟨"store", "a", "out"⟩, ⟨"store", "a", "out"⟩]⟩, 6) ∧
    (6 : Nat) ≠ 5 := by
  exact ⟨by decide, by decide⟩

/-- C4: a failure connecting to the tool-session transport or a failure
of a chat-model call aborts the whole chat request with a single
`chatFailed` payload, both for the initial model call and for any
in-loop model call; a per-round tool-call failure is never escalated:
whatever `execTool` returns (error-flagged or not), the round appends
the assistant turn and one ordinary `tool` turn per call carrying the
result text, and the loop continues. -/
theorem chat_failure_semantics :
    (∀ (tools : List String) (m : Nat → Except String (Option ChatMsg))
        (e : String → String → ToolCallResult) (ms : List Turn) (er : String),
      ms.isEmpty = false →
      chatEndpoint (.ok ()) (.error er) tools m e ⟨none, some ms⟩ = (.chatFailed er, 0)) ∧
    (∀ (tools : List String) (m : Nat → Except String (Option ChatMsg))
        (e : String → String → ToolCallResult) (ms : List Turn) (er : String),
      ms.isEmpty = false → tools.isEmpty = false → m 0 = .error er →
      chatEndpoint (.ok ()) (.ok ()) tools m e ⟨none, some ms⟩ = (.chatFailed er, 1)) ∧
    (∀ (m : Nat → Except String (Option ChatMsg)) (e : String → String → ToolCallResult)
        (fuel calls : Nat) (msg : ChatMsg) (msgs : List Turn) (logs : List ToolLog)
        (er : String),
      msg.tool_calls.isEmpty = false → m calls = .error er →
      chatRounds m e (fuel + 1) calls (some msg) msgs logs = (.error er, calls + 1)) ∧
    (∀ (m : Nat → Except String (Option ChatMsg)) (e : String → String → ToolCallResult)
        (fuel calls : Nat) (msg : ChatMsg) (msgs : List Turn) (logs : List ToolLog)
        (c : Option ChatMsg),
      msg.tool_calls.isEmpty = false → m calls = .ok c →
      chatRounds m e (fuel + 1) calls (some msg) msgs logs =
        chatRounds m e fuel (calls + 1) c
          (msgs ++ [Turn.assistant (msg.content.getD "") msg.tool_calls] ++
            roundToolTurns e msg.tool_calls)
          (logs ++ roundLogs e msg.tool_calls)) ∧
    (∀ (e : String → String → ToolCallResult) (tcs : List ToolCall) (tc : ToolCall),
      tc ∈ tcs → Turn.tool (e tc.name tc.args).text tc.id ∈ roundToolTurns e tcs) := by
  refine ⟨?_, ?_, ?_, ?_, ?_⟩
  · intro tools m e ms er hms
    simp [chatEndpoint, hms]
  · intro tools m e ms er hms htools h0
    simp [chatEndpoint, hms, htools, h0]
  · intro m e fuel calls msg msgs logs er h hm
    exact chatRounds_model_error m e fuel calls msg msgs logs er h hm
  · intro m e fuel calls msg msgs logs c h hm
    exact chatRounds_step m e fuel calls msg msgs logs c h hm
  · intro e tcs tc htc
    exact List.mem_map_of_mem _ htc

/-- A tool executor all of whose results are error-flagged. -/
def errExec : String → String → ToolCallResult := fun _ _ => ⟨true, "tool failed"⟩

/-- C4 witness: a connect failure yields the single `chatFailed`
payload; a round whose only tool call fails is appended as an ordinary
`tool` turn carrying the error text and the loop continues. -/
theorem chat_failure_semantics_inst :
    chatEndpoint (.ok ()) (.error "boom") ["store", "sum"] constToolModel errExec
      ⟨none, some [Turn.user "hi"]⟩ = (.chatFailed "boom", 0) ∧
    chatRounds constToolModel errExec 5 1 (some constToolMsg) [Turn.user "hi"] [] =
      chatRounds constToolModel errExec 4 2 (some constToolMsg)
        ([Turn.user "hi"] ++ [Turn.assistant "" constToolMsg.tool_calls] ++
          roundToolTurns errExec constToolMsg.tool_calls)
        ([] ++ roundLogs errExec constToolMsg.tool_calls) ∧
    Turn.tool "tool failed" "call1" ∈ roundToolTurns errExec constToolMsg.tool_calls :=
  ⟨chat_failure_semantics.1 ["store", "sum"] constToolModel errExec [Turn.user "hi"]
      "boom" rfl,
   chat_failure_semantics.2.2.2.1 constToolModel errExec 4 1 constToolMsg
      [Turn.user "hi"] [] (some constToolMsg) rfl rfl,
   chat_failure_semantics.2.2.2.2 errExec constToolMsg.tool_calls
      ⟨"call1", "store", "a"⟩ (by decide)⟩

/-- C10: a completion carrying no message breaks the loop: the round
loop returns the sentinel with the logs accumulated so far, and at the
endpoint level a first completion with no message yields the 200
response with the sentinel content and empty toolLogs — identical in
shape to round exhaustion, not an upstream error. -/
theorem chat_missing_message_sentinel :
    (∀ (m : Nat → Except String (Option ChatMsg)) (e : String → String → ToolCallResult)
        (fuel calls : Nat) (msgs : List Turn) (logs : List ToolLog),
      chatRounds m e (fuel + 1) calls none msgs logs =
        (.ok ⟨sentinelContent, logs⟩, calls)) ∧
    (∀ (tools : List String) (m : Nat → Except String (Option ChatMsg))
        (e : String → String → ToolCallResult) (ms : List Turn),
      ms.isEmpty = false → tools.isEmpty = false → m 0 = .ok none →
      chatEndpoint (.ok ()) (.ok ()) tools m e ⟨none, some ms⟩ =
        (.ok ⟨sentinelContent, []⟩, 1)) := by
  refine ⟨fun m e fuel calls msgs logs => rfl, ?_⟩
  intro tools m e ms hms htools h0
  rw [chatEndpoint_entry tools m e ms none hms htools h0]
  rfl

/-- C10 witness: a model whose first completion has no message. -/
theorem chat_missing_message_sentinel_inst :
    chatEndpoint (.ok ()) (.ok ()) ["store", "sum"] (fun _ => .ok none) constExec
      ⟨none, some [Turn.user "hi"]⟩ = (.ok ⟨sentinelContent, []⟩, 1) :=
  chat_missing_message_sentinel.2 ["store", "sum"] (fun _ => .ok none) constExec
    [Turn.user "hi"] rfl rfl rfl

/-- C8: within one round the requested tool calls are resolved in the
order the model emitted them and `toolLogs` preserves that order (it is
the in-order image of the round's tool-call list); a model that
requests a round of tool calls and then answers in plain text yields
that answer as the final assistant turn with exactly that round's logs
after 2 model calls. -/
theorem chat_tool_order_preserved (tools : List String)
    (m : Nat → Except String (Option ChatMsg)) (e : String → String → ToolCallResult)
    (msg : ChatMsg) (finalText : String) (ms : List Turn) (hms : ms.isEmpty = false)
    (htools : tools.isEmpty = false) (h0 : m 0 = .ok (some msg))
    (hne : msg.tool_calls.isEmpty = false) (h1 : m 1 = .ok (some ⟨some finalText, []⟩)) :
    chatEndpoint (.ok ()) (.ok ()) tools m e ⟨none, some ms⟩ =
      (.ok ⟨finalText, roundLogs e msg.tool_calls⟩, 2) ∧
    roundLogs e msg.tool_calls =
      msg.tool_calls.map (fun tc => ⟨tc.name, tc.args, (e tc.name tc.args).text⟩) := by
  refine ⟨?_, rfl⟩
  rw [chatEndpoint_entry tools m e ms (some msg) hms htools h0,
    chatRounds_step m e 4 1 msg ms [] (some ⟨some finalText, []⟩) hne h1,
    chatRounds_plain_text m e 3 2 ⟨some finalText, []⟩ _ _ rfl]
  simp

/-- A model that issues a `store` call then a `sum` call in its first
round and answers in plain text in the second. -/
def orderModel : Nat → Except String (Option ChatMsg) := fun i =>
  if i == 0 then .ok (some ⟨some "", [⟨"call1", "store", "argsA"⟩, ⟨"call2", "sum", "argsB"⟩]⟩)
  else .ok (some ⟨some "done", []⟩)

/-- C8 witness: the store-then-sum model yields the final assistant
turn "done" and a toolLogs array of length 2, store first, sum second. -/
theorem chat_tool_order_preserved_inst :
    chatEndpoint (.ok ()) (.ok ()) ["store", "sum"] orderModel constExec
      ⟨none, some [Turn.user "Store value 7 called demo, then sum last 24h"]⟩ =
      (.ok ⟨"done", [⟨"store", "argsA", "out"⟩, ⟨"sum", "argsB", "out"⟩]⟩, 2) :=
  (chat_tool_order_preserved ["store", "sum"] orderModel constExec
    ⟨some "", [⟨"call1", "store", "argsA"⟩, ⟨"call2", "sum", "argsB"⟩]⟩ "done"
    [Turn.user "Store value 7 called demo, then sum last 24h"]
    rfl rfl rfl rfl rfl).1.trans (by decide)

/-- The JS number 3.5 (a non-integer numeric value). -/
def qHalfSeven : ℚ := ⟨7, 2, by decide, by decide⟩

/-- The JS number 5. -/
def qFive : ℚ := ⟨5, 1, by decide, by decide⟩

/-- C3 (amended): on every surface, a missing or non-integer `value`
fails the store tool — with the exact text "value must be an integer"
on the REST endpoint but "value must be integer" on the tool-protocol
handler; a missing, non-string or blank `description` fails with the
exact text "description is required" on both; otherwise both insert the
entry and succeed with the serialization of the created Entry. -/
theorem store_validation_surfaces :
    (∀ (st : DBState) (now : String) (v d : Option JVal),
      jsIsIntegerNumber v = false →
      restStore st now ⟨v, d⟩ = (.err "value must be an integer", st) ∧
      mcpCallTool st now "store" ⟨v, d, none, none⟩ = (.err "value must be integer", st)) ∧
    (∀ (st : DBState) (now : String) (q : ℚ) (d : Option JVal),
      q.den = 1 → jsNonBlankString d = false →
      restStore st now ⟨some (.jnum q), d⟩ = (.err "description is required", st) ∧
      mcpCallTool st now "store" ⟨some (.jnum q), d, none, none⟩ =
        (.err "description is required", st)) ∧
    (∀ (st : DBState) (now : String) (q : ℚ) (s : String),
      q.den = 1 → strEmpty (jsTrim s) = false →
      restStore st now ⟨some (.jnum q), some (.jstr s)⟩ =
        (.ok (entryToJson (insertEntry st now q.num s).1), (insertEntry st now q.num s).2) ∧
      mcpCallTool st now "store" ⟨some (.jnum q), some (.jstr s), none, none⟩ =
        (.ok (entryToJson (insertEntry st now q.num s).1), (insertEntry st now q.num s).2)) := by
  refine ⟨?_, ?_, ?_⟩
  · intro st now v d hv
    match v with
    | none => exact ⟨rfl, rfl⟩
    | some (.jstr s) => exact ⟨rfl, rfl⟩
    | some (.jnum q) =>
      simp only [jsIsIntegerNumber] at hv
      exact ⟨by simp [restStore, hv], by simp [mcpCallTool, hv]⟩
  · intro st now q d hq hd
    match d with
    | none => exact ⟨by simp [restStore, hq], by simp [mcpCallTool, hq]⟩
    | some (.jnum q2) => exact ⟨by simp [restStore, hq], by simp [mcpCallTool, hq]⟩
    | some (.jstr s) =>
      simp only [jsNonBlankString, Bool.not_eq_false'] at hd
      exact ⟨by simp [restStore, hq, hd], by simp [mcpCallTool, hq, hd]⟩
  · intro st now q s hq hs
    exact ⟨by simp [restStore, hq, hs], by simp [mcpCallTool, hq, hs]⟩

/-- C3 witness: value 3.5 rejected on both surfaces (with the two
texts); blank description rejected; value 5 with description "hello"
inserted and serialized on the tool-protocol surface. -/
theorem store_validation_surfaces_inst :
    restStore DBState.empty "T" ⟨some (.jnum qHalfSeven), some (.jstr "x")⟩ =
      (.err "value must be an integer", DBState.empty) ∧
    mcpCallTool DBState.empty "T" "store" ⟨some (.jnum qFive), some (.jstr "  "), none, none⟩ =
      (.err "description is required", DBState.empty) ∧
    mcpCallTool DBState.empty "T" "store" ⟨some (.jnum qFive), some (.jstr "hello"), none, none⟩ =
      (.ok (entryToJson (insertEntry DBState.empty "T" qFive.num "hello").1),
        (insertEntry DBState.empty "T" qFive.num "hello").2) :=
  ⟨(store_validation_surfaces.1 DBState.empty "T" (some (.jnum qHalfSeven))
      (some (.jstr "x")) (by decide)).1,
   (store_validation_surfaces.2.1 DBState.empty "T" qFive (some (.jstr "  "))
      (by decide) (by decide)).2,
   (store_validation_surfaces.2.2 DBState.empty "T" qFive "hello"
      (by decide) (by decide)).2⟩

/-- C3 counterexample: on the tool-protocol surface, value 3.5 fails
with the text "value must be integer", which is not the claimed exact
text "value must be an integer". -/
theorem store_value_text_refuted :
    mcpCallTool DBState.empty "T" "store"
        ⟨some (.jnum qHalfSeven), some (.jstr "x"), none, none⟩ =
      (.err "value must be integer", DBState.empty) ∧
    ("value must be integer" : String) ≠ "value must be an integer" :=
  ⟨by decide, by decide⟩

/-- C2 (amended): for the store tool the REST endpoint and the
tool-protocol handler always reach the same success/error decision,
leave the store in the same state, and on success return the identical
entry serialization; for the sum tool they reach the same decision on
the same query strings and on success both report the same total — but
the surface texts differ (REST wraps the total in a JSON object and the
two value-validation and missing-range error texts differ in wording). -/
theorem rest_mcp_decision_agreement :
    (∀ (st : DBState) (now : String) (v d : Option JVal),
      ((restStore st now ⟨v, d⟩).1.isErr =
        (mcpCallTool st now "store" ⟨v, d, none, none⟩).1.isErr) ∧
      ((restStore st now ⟨v, d⟩).2 = (mcpCallTool st now "store" ⟨v, d, none, none⟩).2) ∧
      ((restStore st now ⟨v, d⟩).1.isErr = false →
        (restStore st now ⟨v, d⟩).1 = (mcpCallTool st now "store" ⟨v, d, none, none⟩).1)) ∧
    (∀ (st : DBState) (now : String) (fq tq : Option String),
      (restSum st fq tq).isErr =
        (mcpCallTool st now "sum" ⟨none, none, fq.map JVal.jstr, tq.map JVal.jstr⟩).1.isErr) ∧
    (∀ (st : DBState) (now f t : String), strEmpty f = false → strEmpty t = false →
      restSum st (some f) (some t) =
        .ok ("\x7b\"total\":" ++ toString (sumEntries st (.jstr f) (.jstr t)) ++ "\x7d") ∧
      (mcpCallTool st now "sum" ⟨none, none, some (.jstr f), some (.jstr t)⟩).1 =
        .ok (toString (sumEntries st (.jstr f) (.jstr t)))) := by
  refine ⟨?_, ?_, ?_⟩
  · intro st now v d
    match v with
    | none => exact ⟨rfl, rfl, fun h => by simp [restStore, ToolOutcome.isErr] at h⟩
    | some (.jstr s) => exact ⟨rfl, rfl, fun h => by simp [restStore, ToolOutcome.isErr] at h⟩
    | some (.jnum q) =>
      by_cases hq : (q.den == 1) = true
      · match d with
        | none =>
          exact ⟨by simp [restStore, mcpCallTool, hq], by simp [restStore, mcpCallTool, hq],
            fun h => by simp [restStore, hq, ToolOutcome.isErr] at h⟩
        | some (.jnum q2) =>
          exact ⟨by simp [restStore, mcpCallTool, hq], by simp [restStore, mcpCallTool, hq],
            fun h => by simp [restStore, hq, ToolOutcome.isErr] at h⟩
        | some (.jstr s) =>
          by_cases hs : strEmpty (jsTrim s) = true
          · exact ⟨by simp [restStore, mcpCallTool, hq, hs],
              by simp [restStore, mcpCallTool, hq, hs],
              fun h => by simp [restStore, hq, hs, ToolOutcome.isErr] at h⟩
          · rw [Bool.not_eq_true] at hs
            exact ⟨by simp [restStore, mcpCallTool, hq, hs],
              by simp [restStore, mcpCallTool, hq, hs],
              fun _ => by simp [restStore, mcpCallTool, hq, hs]⟩
      · rw [Bool.not_eq_true] at hq
        exact ⟨by simp [restStore, mcpCallTool, hq, ToolOutcome.isErr],
          by simp [restStore, mcpCallTool, hq],
          fun h => by simp [restStore, hq, ToolOutcome.isErr] at h⟩
  · intro st now fq tq
    match fq, tq with
    | none, none => rfl
    | none, some t => rfl
    | some f, none => simp [restSum, mcpCallTool, ToolOutcome.isErr]
    | some f, some t =>
      by_cases hf : strEmpty f = true <;> by_cases ht : strEmpty t = true <;>
        simp_all [restSum, mcpCallTool, jsTruthyV, ToolOutcome.isErr]
  · intro st now f t hf ht
    exact ⟨by simp [restSum, hf, ht], by simp [mcpCallTool, jsTruthyV, hf, ht]⟩

/-- C2 witness: concrete agreement — storing value 5 with description
"hello" succeeds identically on both surfaces, and the sum decision on
a concrete non-empty range agrees. -/
theorem rest_mcp_decision_agreement_inst :
    (restStore DBState.empty "T" ⟨some (.jnum qFive), some (.jstr "hello")⟩).1 =
      (mcpCallTool DBState.empty "T" "store"
        ⟨some (.jnum qFive), some (.jstr "hello"), none, none⟩).1 ∧
    (restSum DBState.empty (some "a") (some "b")).isErr =
      (mcpCallTool DBState.empty "T" "sum"
        ⟨none, none, some (.jstr "a"), some (.jstr "b")⟩).1.isErr :=
  ⟨(rest_mcp_decision_agreement.1 DBState.empty "T" (some (.jnum qFive))
      (some (.jstr "hello"))).2.2 (by decide),
   by
    have h := rest_mcp_decision_agreement.2.1 DBState.empty "T" (some "a") (some "b")
    simpa using h⟩

/-- C2 counterexample: for value 3.5 the two surfaces agree on the
error decision but return different error texts, so they do not
produce "the same result/error text for the same input". -/
theorem rest_mcp_outcome_refuted :
    (restStore DBState.empty "T" ⟨some (.jnum qHalfSeven), some (.jstr "x")⟩).1 =
      .err "value must be an integer" ∧
    (mcpCallTool DBState.empty "T" "store"
        ⟨some (.jnum qHalfSeven), some (.jstr "x"), none, none⟩).1 =
      .err "value must be integer" ∧
    ToolOutcome.err "value must be an integer" ≠ ToolOutcome.err "value must be integer" :=
  ⟨by decide, by decide, by decide⟩
